import Mathlib

/-!
Pressure collector (`collector/pressure_linux.go`)

A shallow embedding of `NewPressureCollector` and `pressureCollector.Update`.

Conventions of the embedding:

* The output channel `ch` is the list of metrics sent on it, in sending order.
* A Go `error` result is an `Option Error` (`none` is Go's `nil`).
* `float64` values are exact rationals: `float64(x)/1000.0/1000.0` is the
  rational `x / 1000 / 1000`; rounding is outside the model.
* `procfs.NewFS`, `fs.NewResourcePressure`, `*procPath` and the package constant
  `namespace` are supplied from outside (they are not defined in this file of the
  repository), so they are parameters here.
* `log.Debugf` only writes a log line and is not part of the observable result.
-/

namespace PressureCollector

/-! ## External collaborators -/

/-- A Go `error` value: its text and whether `os.IsNotExist` reports it as a
"file does not exist" condition. -/
structure Error where
  msg : String
  notExist : Bool
  deriving DecidableEq, Repr

/-- The test `os.IsNotExist(err)`. -/
def IsNotExist (err : Error) : Bool := err.notExist

/-- The call `fmt.Errorf("failed to open procfs: %v", err)`: a fresh error holding only the
formatted text, which `os.IsNotExist` does not recognise. -/
def Errorf (err : Error) : Error :=
  { msg := "failed to open procfs: " ++ err.msg, notExist := false }

/-- One line of a pressure file, as far as the collector reads it: the cumulative
stall time in microseconds (`uint64`). -/
structure ResourcePressureLine where
  TotalMicroseconds : Nat
  deriving DecidableEq, Repr

/-- The record `procfs.ResourcePressure`: two nullable pointers to a line. -/
structure ResourcePressure where
  Some : Option ResourcePressureLine
  Full : Option ResourcePressureLine
  deriving DecidableEq, Repr

/-- The handle `procfs.FS`, seen through its one method used here. -/
structure FS where
  NewResourcePressure : String → Except Error ResourcePressure

/-- The descriptor `prometheus.Desc`, as built by `prometheus.NewDesc(fqName, help, nil, nil)`. -/
structure Desc where
  fqName : String
  help : String
  variableLabels : List String
  constLabels : List (String × String)
  deriving DecidableEq, Repr

/-- The constructor `prometheus.NewDesc`. -/
def NewDesc (fqName help : String) (variableLabels : List String)
    (constLabels : List (String × String)) : Desc :=
  { fqName := fqName, help := help, variableLabels := variableLabels, constLabels := constLabels }

/-- The function `prometheus.BuildFQName`: joins the non-empty parts with `_`; an empty
`name` gives the empty string. -/
def BuildFQName (namespace_ subsystem name : String) : String :=
  if name = "" then ""
  else if namespace_ ≠ "" ∧ subsystem ≠ "" then namespace_ ++ "_" ++ subsystem ++ "_" ++ name
  else if namespace_ ≠ "" then namespace_ ++ "_" ++ name
  else if subsystem ≠ "" then subsystem ++ "_" ++ name
  else name

/-- The enumeration `prometheus.ValueType`. -/
inductive ValueType where
  | CounterValue
  | GaugeValue
  | UntypedValue
  deriving DecidableEq, Repr

/-- A constant metric, the result of `prometheus.MustNewConstMetric(desc, valueType, value)`. -/
structure Metric where
  desc : Desc
  valueType : ValueType
  value : ℚ
  deriving DecidableEq

/-- The constructor `prometheus.MustNewConstMetric` with no label values. The library call
panics on an invalid descriptor or a label mismatch; the five descriptors of this collector have
no variable labels and fixed names, so for a namespace that is a legal metric-name part the call
returns the metric, which is what is modelled. -/
def MustNewConstMetric (desc : Desc) (valueType : ValueType) (value : ℚ) : Metric :=
  { desc := desc, valueType := valueType, value := value }

/-! ## The collector -/

/-- The struct `pressureCollector`. -/
structure pressureCollector where
  cpu : Desc
  io : Desc
  ioFull : Desc
  mem : Desc
  memFull : Desc
  deriving DecidableEq, Repr

/-- The function `NewPressureCollector`, for a given value of the package constant `namespace`.
Returns the collector and the (always nil) error. -/
def NewPressureCollector (namespace_ : String) : pressureCollector × Option Error :=
  ({ cpu := NewDesc
        (BuildFQName namespace_ "pressure" "wait_for_cpu_seconds_total")
        "Total time in seconds that processes have waited for CPU time"
        [] [],
     io := NewDesc
        (BuildFQName namespace_ "pressure" "wait_for_io_seconds_total")
        "Total time in seconds that processes have waited due to IO congestion"
        [] [],
     ioFull := NewDesc
        (BuildFQName namespace_ "pressure" "pause_for_io_seconds_total")
        "Total time in seconds no process could make progress due to IO congestion"
        [] [],
     mem := NewDesc
        (BuildFQName namespace_ "pressure" "wait_for_memory_seconds_total")
        "Total time in seconds that processes have waited for memory"
        [] [],
     memFull := NewDesc
        (BuildFQName namespace_ "pressure" "pause_for_memory_seconds_total")
        "Total time in seconds no process could make progess due to memory congestion"
        [] [] },
   none)

/-- The expression `float64(x)/1000.0/1000.0` in exact arithmetic. -/
def toSeconds (x : Nat) : ℚ := (x : ℚ) / 1000 / 1000

/-- The statement `ch <- m`. -/
def send (ch : List Metric) (m : Metric) : List Metric := ch ++ [m]

/-- The expression
`prometheus.MustNewConstMetric(d, prometheus.CounterValue, float64(line.TotalMicroseconds)/1000.0/1000.0)`. -/
def constCounter (d : Desc) (line : ResourcePressureLine) : Metric :=
  MustNewConstMetric d ValueType.CounterValue (toSeconds line.TotalMicroseconds)

/-- The statement `if p != nil { ch <- prometheus.MustNewConstMetric(d, ...) }`, one of the five
at the end of `Update`. -/
def sendIfPresent (ch : List Metric) (d : Desc) (p : Option ResourcePressureLine) : List Metric :=
  match p with
  | some line => send ch (constCounter d line)
  | none => ch

/-- The method `pressureCollector.Update`. The result is the list of metrics sent on the channel,
in order, together with the returned error. -/
def Update (NewFS : String → Except Error FS) (procPath : String) (c : pressureCollector) :
    List Metric × Option Error :=
  match NewFS procPath with
  | .error err => ([], some (Errorf err))
  | .ok fs =>
    match fs.NewResourcePressure "memory" with
    | .error err => if IsNotExist err then ([], none) else ([], some err)
    | .ok mempressure =>
      match fs.NewResourcePressure "io" with
      | .error err => if IsNotExist err then ([], none) else ([], some err)
      | .ok iopressure =>
        match fs.NewResourcePressure "cpu" with
        | .error err => if IsNotExist err then ([], none) else ([], some err)
        | .ok cpupressure =>
          let ch : List Metric := []
          let ch := sendIfPresent ch c.cpu cpupressure.Some
          let ch := sendIfPresent ch c.mem mempressure.Some
          let ch := sendIfPresent ch c.io iopressure.Some
          let ch := sendIfPresent ch c.memFull mempressure.Full
          let ch := sendIfPresent ch c.ioFull iopressure.Full
          (ch, none)

/-! ## Concrete environments used in the examples -/

/-- A "file does not exist" error. -/
def errNotExist : Error := { msg := "no such file or directory", notExist := true }

/-- An error that is not a "file does not exist" error. -/
def errParse : Error := { msg := "malformed pressure line", notExist := false }

/-- A mount where only the `cpu` pressure file exists, holding
`some avg10=0.00 avg60=0.00 avg300=0.00 total=5000000`. -/
def fsCpuOnly : FS :=
  { NewResourcePressure := fun r =>
      if r = "cpu" then .ok { Some := some { TotalMicroseconds := 5000000 }, Full := none }
      else .error errNotExist }

/-- A mount where the `memory` file is missing, the `io` file is malformed and the `cpu`
file is well formed. -/
def fsMemMissingIoBad : FS :=
  { NewResourcePressure := fun r =>
      if r = "memory" then .error errNotExist
      else if r = "io" then .error errParse
      else .ok { Some := some { TotalMicroseconds := 5000000 }, Full := none } }

/-- A mount where all three files exist with both lines; `cpu` too carries a `full` line. -/
def fsAll (cs cf ms mf is_ if_ : Nat) : FS :=
  { NewResourcePressure := fun r =>
      if r = "memory" then
        .ok { Some := some { TotalMicroseconds := ms }, Full := some { TotalMicroseconds := mf } }
      else if r = "io" then
        .ok { Some := some { TotalMicroseconds := is_ }, Full := some { TotalMicroseconds := if_ } }
      else
        .ok { Some := some { TotalMicroseconds := cs }, Full := some { TotalMicroseconds := cf } } }

/-- A mount where `memory` reports only its `some` line (total 3000000), `io` reports both
lines (totals 2000000 and 500000) and `cpu` reports nothing. -/
def fsSparse : FS :=
  { NewResourcePressure := fun r =>
      if r = "memory" then
        .ok { Some := some { TotalMicroseconds := 3000000 }, Full := none }
      else if r = "io" then
        .ok { Some := some { TotalMicroseconds := 2000000 },
              Full := some { TotalMicroseconds := 500000 } }
      else
        .ok { Some := none, Full := none } }

/-- An opener that always succeeds with the given handle. -/
def openOk (fs : FS) : String → Except Error FS := fun _ => .ok fs

/-- An opener that always fails. -/
def openFail : String → Except Error FS :=
  fun _ => .error { msg := "could not read /proc", notExist := false }

/-! ## General facts about `Update` -/

lemma Update_open_error (NewFS : String → Except Error FS) (procPath : String)
    (c : pressureCollector) (err : Error) (hopen : NewFS procPath = .error err) :
    Update NewFS procPath c = ([], some (Errorf err)) := by
  simp [Update, hopen]

lemma Update_memory_error (NewFS : String → Except Error FS) (procPath : String)
    (c : pressureCollector) (fs : FS) (err : Error) (hopen : NewFS procPath = .ok fs)
    (hmem : fs.NewResourcePressure "memory" = .error err) :
    Update NewFS procPath c = ([], if IsNotExist err then none else some err) := by
  simp only [Update, hopen, hmem]
  split <;> rfl

lemma Update_io_error (NewFS : String → Except Error FS) (procPath : String)
    (c : pressureCollector) (fs : FS) (mp : ResourcePressure) (err : Error)
    (hopen : NewFS procPath = .ok fs)
    (hmem : fs.NewResourcePressure "memory" = .ok mp)
    (hio : fs.NewResourcePressure "io" = .error err) :
    Update NewFS procPath c = ([], if IsNotExist err then none else some err) := by
  simp only [Update, hopen, hmem, hio]
  split <;> rfl

lemma Update_cpu_error (NewFS : String → Except Error FS) (procPath : String)
    (c : pressureCollector) (fs : FS) (mp ip : ResourcePressure) (err : Error)
    (hopen : NewFS procPath = .ok fs)
    (hmem : fs.NewResourcePressure "memory" = .ok mp)
    (hio : fs.NewResourcePressure "io" = .ok ip)
    (hcpu : fs.NewResourcePressure "cpu" = .error err) :
    Update NewFS procPath c = ([], if IsNotExist err then none else some err) := by
  simp only [Update, hopen, hmem, hio, hcpu]
  split <;> rfl

lemma Update_all_ok (NewFS : String → Except Error FS) (procPath : String)
    (c : pressureCollector) (fs : FS) (mp ip cp : ResourcePressure)
    (hopen : NewFS procPath = .ok fs)
    (hmem : fs.NewResourcePressure "memory" = .ok mp)
    (hio : fs.NewResourcePressure "io" = .ok ip)
    (hcpu : fs.NewResourcePressure "cpu" = .ok cp) :
    Update NewFS procPath c =
      (sendIfPresent (sendIfPresent (sendIfPresent (sendIfPresent (sendIfPresent []
        c.cpu cp.Some) c.mem mp.Some) c.io ip.Some) c.memFull mp.Full) c.ioFull ip.Full,
       none) := by
  simp only [Update, hopen, hmem, hio, hcpu]

/-- Whatever the inputs, `Update` sends nothing unless the mount opens and all three fetches
succeed. -/
lemma Update_emits_only_when_all_ok (NewFS : String → Except Error FS) (procPath : String)
    (c : pressureCollector) (h : (Update NewFS procPath c).1 ≠ []) :
    ∃ fs mp ip cp, NewFS procPath = .ok fs ∧ fs.NewResourcePressure "memory" = .ok mp ∧
      fs.NewResourcePressure "io" = .ok ip ∧ fs.NewResourcePressure "cpu" = .ok cp := by
  cases hopen : NewFS procPath with
  | error err => rw [Update_open_error _ _ _ _ hopen] at h; exact absurd rfl h
  | ok fs =>
    cases hmem : fs.NewResourcePressure "memory" with
    | error err => rw [Update_memory_error _ _ _ _ _ hopen hmem] at h; exact absurd rfl h
    | ok mp =>
      cases hio : fs.NewResourcePressure "io" with
      | error err => rw [Update_io_error _ _ _ _ _ _ hopen hmem hio] at h; exact absurd rfl h
      | ok ip =>
        cases hcpu : fs.NewResourcePressure "cpu" with
        | error err =>
          rw [Update_cpu_error _ _ _ _ _ _ _ hopen hmem hio hcpu] at h; exact absurd rfl h
        | ok cp => exact ⟨fs, mp, ip, cp, rfl, hmem, hio, hcpu⟩

/-- The samples sent by a cycle in which the mount opens and the three fetches succeed,
written as a concatenation of five optional samples. -/
lemma Update_emitted_eq (NewFS : String → Except Error FS) (procPath : String)
    (c : pressureCollector) (fs : FS) (mp ip cp : ResourcePressure)
    (hopen : NewFS procPath = .ok fs)
    (hmem : fs.NewResourcePressure "memory" = .ok mp)
    (hio : fs.NewResourcePressure "io" = .ok ip)
    (hcpu : fs.NewResourcePressure "cpu" = .ok cp) :
    (Update NewFS procPath c).1 =
      (cp.Some.map (constCounter c.cpu)).toList ++ (mp.Some.map (constCounter c.mem)).toList ++
      (ip.Some.map (constCounter c.io)).toList ++ (mp.Full.map (constCounter c.memFull)).toList ++
      (ip.Full.map (constCounter c.ioFull)).toList := by
  rw [Update_all_ok NewFS procPath c fs mp ip cp hopen hmem hio hcpu]
  cases cp.Some <;> cases mp.Some <;> cases ip.Some <;> cases mp.Full <;> cases ip.Full <;>
    simp [sendIfPresent, send]

lemma toSeconds_eq (x : Nat) : toSeconds x = (x : ℚ) / 1000000 := by
  unfold toSeconds
  rw [div_div]
  norm_num

lemma toSeconds_mono (x y : Nat) (h : x ≤ y) : toSeconds x ≤ toSeconds y := by
  rw [toSeconds_eq, toSeconds_eq]
  have hxy : (x : ℚ) ≤ (y : ℚ) := by exact_mod_cast h
  exact div_le_div_of_nonneg_right hxy (by norm_num)

/-! ## Facts about the descriptors -/

lemma String_append_left_cancel (s a b : String) (h : s ++ a = s ++ b) : a = b := by
  have h2 := congrArg String.data h
  simp only [String.data_append] at h2
  exact String.ext (List.append_cancel_left h2)

lemma BuildFQName_pressure_inj (namespace_ a b : String) (ha : a ≠ "") (hb : b ≠ "")
    (h : BuildFQName namespace_ "pressure" a = BuildFQName namespace_ "pressure" b) : a = b := by
  unfold BuildFQName at h
  by_cases hn : namespace_ = ""
  · simp [hn, ha, hb] at h
    exact String_append_left_cancel _ _ _ h
  · simp [hn, ha, hb] at h
    exact String_append_left_cancel _ _ _ h

lemma BuildFQName_pressure_nonempty (namespace_ name : String) (hn : namespace_ ≠ "")
    (hname : name ≠ "") :
    BuildFQName namespace_ "pressure" name = namespace_ ++ "_pressure_" ++ name := by
  simp [BuildFQName, hn, hname, String.append_assoc]

/-- The five metric names built by `NewPressureCollector` are pairwise distinct, for every
value of the namespace constant. -/
lemma NewPressureCollector_names_nodup (namespace_ : String) :
    [(NewPressureCollector namespace_).1.cpu.fqName, (NewPressureCollector namespace_).1.mem.fqName,
     (NewPressureCollector namespace_).1.io.fqName, (NewPressureCollector namespace_).1.memFull.fqName,
     (NewPressureCollector namespace_).1.ioFull.fqName].Nodup := by
  have key : ∀ a b : String, a ≠ "" → b ≠ "" → a ≠ b →
      BuildFQName namespace_ "pressure" a ≠ BuildFQName namespace_ "pressure" b :=
    fun a b ha hb hab h => hab (BuildFQName_pressure_inj namespace_ a b ha hb h)
  simp only [NewPressureCollector, NewDesc, List.nodup_cons, List.mem_cons, List.mem_singleton,
    List.not_mem_nil, not_or, List.nodup_nil, and_true, not_false_eq_true]
  refine ⟨⟨?_, ?_, ?_, ?_⟩, ⟨?_, ?_, ?_⟩, ⟨?_, ?_⟩, ?_⟩ <;>
    exact key _ _ (by decide) (by decide) (by decide)

/-- The five descriptors built by `NewPressureCollector` are pairwise distinct. -/
lemma NewPressureCollector_descs_nodup (namespace_ : String) :
    [(NewPressureCollector namespace_).1.cpu, (NewPressureCollector namespace_).1.mem,
     (NewPressureCollector namespace_).1.io, (NewPressureCollector namespace_).1.memFull,
     (NewPressureCollector namespace_).1.ioFull].Nodup := by
  have h := NewPressureCollector_names_nodup namespace_
  exact List.Nodup.of_map Desc.fqName h

/-- With pairwise distinct descriptors, selecting the samples of one descriptor from the five
optional samples gives back exactly that descriptor's optional sample. -/
lemma filter_by_desc (c : pressureCollector)
    (hnd : [c.cpu, c.mem, c.io, c.memFull, c.ioFull].Nodup)
    (a b d e f : Option ResourcePressureLine) :
    (((a.map (constCounter c.cpu)).toList ++ (b.map (constCounter c.mem)).toList ++
      (d.map (constCounter c.io)).toList ++ (e.map (constCounter c.memFull)).toList ++
      (f.map (constCounter c.ioFull)).toList).filter (fun m => m.desc = c.cpu)
        = (a.map (constCounter c.cpu)).toList) ∧
    (((a.map (constCounter c.cpu)).toList ++ (b.map (constCounter c.mem)).toList ++
      (d.map (constCounter c.io)).toList ++ (e.map (constCounter c.memFull)).toList ++
      (f.map (constCounter c.ioFull)).toList).filter (fun m => m.desc = c.mem)
        = (b.map (constCounter c.mem)).toList) ∧
    (((a.map (constCounter c.cpu)).toList ++ (b.map (constCounter c.mem)).toList ++
      (d.map (constCounter c.io)).toList ++ (e.map (constCounter c.memFull)).toList ++
      (f.map (constCounter c.ioFull)).toList).filter (fun m => m.desc = c.io)
        = (d.map (constCounter c.io)).toList) ∧
    (((a.map (constCounter c.cpu)).toList ++ (b.map (constCounter c.mem)).toList ++
      (d.map (constCounter c.io)).toList ++ (e.map (constCounter c.memFull)).toList ++
      (f.map (constCounter c.ioFull)).toList).filter (fun m => m.desc = c.memFull)
        = (e.map (constCounter c.memFull)).toList) ∧
    (((a.map (constCounter c.cpu)).toList ++ (b.map (constCounter c.mem)).toList ++
      (d.map (constCounter c.io)).toList ++ (e.map (constCounter c.memFull)).toList ++
      (f.map (constCounter c.ioFull)).toList).filter (fun m => m.desc = c.ioFull)
        = (f.map (constCounter c.ioFull)).toList) := by
  simp only [List.nodup_cons, List.mem_cons, List.mem_singleton, List.not_mem_nil, not_or,
    List.nodup_nil, and_true, not_false_eq_true] at hnd
  obtain ⟨⟨h1, h2, h3, h4⟩, ⟨h5, h6, h7⟩, ⟨h8, h9⟩, h10⟩ := hnd
  have h1s := Ne.symm h1
  have h2s := Ne.symm h2
  have h3s := Ne.symm h3
  have h4s := Ne.symm h4
  have h5s := Ne.symm h5
  have h6s := Ne.symm h6
  have h7s := Ne.symm h7
  have h8s := Ne.symm h8
  have h9s := Ne.symm h9
  have h10s := Ne.symm h10
  cases a <;> cases b <;> cases d <;> cases e <;> cases f <;>
    simp [List.filter, constCounter, MustNewConstMetric, h1, h2, h3, h4, h5, h6, h7, h8, h9, h10,
      h1s, h2s, h3s, h4s, h5s, h6s, h7s, h8s, h9s, h10s]

/-- Every sample of the five optional samples carries one of the five descriptors. -/
lemma desc_mem_of_mem (c : pressureCollector) (a b d e f : Option ResourcePressureLine)
    (m : Metric)
    (hm : m ∈ (a.map (constCounter c.cpu)).toList ++ (b.map (constCounter c.mem)).toList ++
      (d.map (constCounter c.io)).toList ++ (e.map (constCounter c.memFull)).toList ++
      (f.map (constCounter c.ioFull)).toList) :
    (m.desc = c.cpu ∧ m.valueType = ValueType.CounterValue ∧
        ∃ s, a = some s ∧ m.value = toSeconds s.TotalMicroseconds) ∨
    (m.desc = c.mem ∧ m.valueType = ValueType.CounterValue ∧
        ∃ s, b = some s ∧ m.value = toSeconds s.TotalMicroseconds) ∨
    (m.desc = c.io ∧ m.valueType = ValueType.CounterValue ∧
        ∃ s, d = some s ∧ m.value = toSeconds s.TotalMicroseconds) ∨
    (m.desc = c.memFull ∧ m.valueType = ValueType.CounterValue ∧
        ∃ s, e = some s ∧ m.value = toSeconds s.TotalMicroseconds) ∨
    (m.desc = c.ioFull ∧ m.valueType = ValueType.CounterValue ∧
        ∃ s, f = some s ∧ m.value = toSeconds s.TotalMicroseconds) := by
  simp only [List.mem_append, Option.mem_toList, Option.mem_def, Option.map_eq_some'] at hm
  rcases hm with (((⟨s, hs, rfl⟩ | ⟨s, hs, rfl⟩) | ⟨s, hs, rfl⟩) | ⟨s, hs, rfl⟩) | ⟨s, hs, rfl⟩
  · exact Or.inl ⟨rfl, rfl, s, hs, rfl⟩
  · exact Or.inr (Or.inl ⟨rfl, rfl, s, hs, rfl⟩)
  · exact Or.inr (Or.inr (Or.inl ⟨rfl, rfl, s, hs, rfl⟩))
  · exact Or.inr (Or.inr (Or.inr (Or.inl ⟨rfl, rfl, s, hs, rfl⟩)))
  · exact Or.inr (Or.inr (Or.inr (Or.inr ⟨rfl, rfl, s, hs, rfl⟩)))

/-- With pairwise distinct descriptors, a sample found among the five optional samples under a
given descriptor is the sample built from that descriptor's sub-record; in particular the
sub-record is present. -/
lemma eq_constCounter_of_mem (c : pressureCollector)
    (hnd : [c.cpu, c.mem, c.io, c.memFull, c.ioFull].Nodup)
    (a b d e f : Option ResourcePressureLine) (m : Metric)
    (hm : m ∈ (a.map (constCounter c.cpu)).toList ++ (b.map (constCounter c.mem)).toList ++
      (d.map (constCounter c.io)).toList ++ (e.map (constCounter c.memFull)).toList ++
      (f.map (constCounter c.ioFull)).toList) :
    (m.desc = c.cpu → ∃ s, a = some s ∧ m = constCounter c.cpu s) ∧
    (m.desc = c.mem → ∃ s, b = some s ∧ m = constCounter c.mem s) ∧
    (m.desc = c.io → ∃ s, d = some s ∧ m = constCounter c.io s) ∧
    (m.desc = c.memFull → ∃ s, e = some s ∧ m = constCounter c.memFull s) ∧
    (m.desc = c.ioFull → ∃ s, f = some s ∧ m = constCounter c.ioFull s) := by
  obtain ⟨f1, f2, f3, f4, f5⟩ := filter_by_desc c hnd a b d e f
  have key : ∀ (dd : Desc) (o : Option ResourcePressureLine),
      m ∈ (o.map (constCounter dd)).toList → ∃ s, o = some s ∧ m = constCounter dd s := by
    intro dd o h
    cases o with
    | none => simp at h
    | some s => exact ⟨s, rfl, by simpa using h⟩
  refine ⟨?_, ?_, ?_, ?_, ?_⟩
  · intro hd
    exact key _ _ (f1 ▸ List.mem_filter.mpr ⟨hm, by simpa using hd⟩)
  · intro hd
    exact key _ _ (f2 ▸ List.mem_filter.mpr ⟨hm, by simpa using hd⟩)
  · intro hd
    exact key _ _ (f3 ▸ List.mem_filter.mpr ⟨hm, by simpa using hd⟩)
  · intro hd
    exact key _ _ (f4 ▸ List.mem_filter.mpr ⟨hm, by simpa using hd⟩)
  · intro hd
    exact key _ _ (f5 ▸ List.mem_filter.mpr ⟨hm, by simpa using hd⟩)

/-- Two samples built for the same descriptor compare like their totals. -/
lemma constCounter_compare (d : Desc) (s1 s2 : ResourcePressureLine) :
    (s1.TotalMicroseconds ≤ s2.TotalMicroseconds →
      (constCounter d s1).value ≤ (constCounter d s2).value) ∧
    (s1.TotalMicroseconds = s2.TotalMicroseconds → constCounter d s1 = constCounter d s2) := by
  constructor
  · intro h
    exact toSeconds_mono _ _ h
  · intro h
    simp [constCounter, h]

/-- The number of samples among five optional samples is the number of present sub-records. -/
lemma length_optional_samples (c : pressureCollector) (a b d e f : Option ResourcePressureLine) :
    ((a.map (constCounter c.cpu)).toList ++ (b.map (constCounter c.mem)).toList ++
      (d.map (constCounter c.io)).toList ++ (e.map (constCounter c.memFull)).toList ++
      (f.map (constCounter c.ioFull)).toList).length =
    ([a, b, d, e, f].filter (fun o => o.isSome)).length := by
  cases a <;> cases b <;> cases d <;> cases e <;> cases f <;> rfl

/-- The descriptors of an optional sample form a subsequence of the one-element list of its
descriptor. -/
lemma desc_sublist_singleton (d : Desc) (o : Option ResourcePressureLine) :
    ((o.map (constCounter d)).toList.map (fun m => m.desc)).Sublist [d] := by
  cases o <;> simp [constCounter, MustNewConstMetric]

/-! ## Error handling of a collection cycle -/

/-- C1 (as stated, refuted): with the `cpu` file reporting `some ... total=5000000` and the
`memory` and `io` files missing, `Update` does return nil, but it sends no sample at all, so the
sample cpu-wait = 5.0 seconds is not emitted. -/
theorem C1_counterexample :
    fsCpuOnly.NewResourcePressure "memory" = .error errNotExist ∧
    fsCpuOnly.NewResourcePressure "io" = .error errNotExist ∧
    IsNotExist errNotExist = true ∧
    fsCpuOnly.NewResourcePressure "cpu" =
      .ok { Some := some { TotalMicroseconds := 5000000 }, Full := none } ∧
    (Update (openOk fsCpuOnly) "/proc" (NewPressureCollector "node").1).2 = none ∧
    (Update (openOk fsCpuOnly) "/proc" (NewPressureCollector "node").1).1 = [] ∧
    (Update (openOk fsCpuOnly) "/proc" (NewPressureCollector "node").1).1 ≠
      [MustNewConstMetric (NewPressureCollector "node").1.cpu ValueType.CounterValue 5] := by
  refine ⟨rfl, rfl, rfl, rfl, ?_, ?_, ?_⟩ <;>
    simp [Update, openOk, fsCpuOnly, errNotExist, IsNotExist]

/-- C1 (amended): when the mount opens, at least one of the fetches for memory, io, cpu fails,
and every failing fetch fails with a "file does not exist" error (the remaining fetches
succeed), `Update` returns no error and emits zero samples: the samples of the resources that
are present are omitted as well. -/
theorem C1_missing_file_ends_cycle_silently (NewFS : String → Except Error FS)
    (procPath : String) (c : pressureCollector) (fs : FS)
    (hopen : NewFS procPath = .ok fs)
    (hfail : ∃ r ∈ ["memory", "io", "cpu"], ∃ e, fs.NewResourcePressure r = .error e)
    (hmissing : ∀ r ∈ ["memory", "io", "cpu"], ∀ e,
      fs.NewResourcePressure r = .error e → IsNotExist e = true) :
    Update NewFS procPath c = ([], none) := by
  have hm := hmissing "memory" (by simp)
  have hi := hmissing "io" (by simp)
  have hc := hmissing "cpu" (by simp)
  cases hmem : fs.NewResourcePressure "memory" with
  | error err => rw [Update_memory_error _ _ _ _ _ hopen hmem, hm err hmem]; rfl
  | ok mp =>
    cases hio : fs.NewResourcePressure "io" with
    | error err => rw [Update_io_error _ _ _ _ _ _ hopen hmem hio, hi err hio]; rfl
    | ok ip =>
      cases hcpu : fs.NewResourcePressure "cpu" with
      | error err => rw [Update_cpu_error _ _ _ _ _ _ _ hopen hmem hio hcpu, hc err hcpu]; rfl
      | ok cp =>
        obtain ⟨r, hr, e, he⟩ := hfail
        simp only [List.mem_cons, List.mem_singleton, List.not_mem_nil, or_false] at hr
        rcases hr with rfl | rfl | rfl
        · rw [hmem] at he; cases he
        · rw [hio] at he; cases he
        · rw [hcpu] at he; cases he

/-- C1 (amended), at the example of the specification: `cpu` present with total 5000000,
`memory` and `io` missing; the cycle succeeds and emits nothing. -/
theorem C1_missing_file_ends_cycle_silently_witness :
    Update (openOk fsCpuOnly) "/proc" (NewPressureCollector "node").1 = ([], none) :=
  C1_missing_file_ends_cycle_silently (openOk fsCpuOnly) "/proc" (NewPressureCollector "node").1
    fsCpuOnly rfl
    ⟨"memory", by simp, errNotExist, rfl⟩
    (by
      intro r _ e he
      by_cases hr : r = "cpu"
      · subst hr; simp [fsCpuOnly] at he
      · simp [fsCpuOnly, hr] at he
        rw [← he]; rfl)

/-- C2 (as stated, refuted): the `io` fetch fails with an error that is not "file does not
exist", yet `Update` returns nil, because the `memory` fetch before it failed with "file does
not exist". -/
theorem C2_counterexample :
    fsMemMissingIoBad.NewResourcePressure "io" = .error errParse ∧
    IsNotExist errParse = false ∧
    (Update (openOk fsMemMissingIoBad) "/proc" (NewPressureCollector "node").1).2 = none := by
  refine ⟨rfl, rfl, ?_⟩
  simp [Update, openOk, fsMemMissingIoBad, errNotExist, IsNotExist]

/-- C2 (amended): when the mount opens and the fetch for any of memory, io, cpu fails with an
error that is not "file does not exist", `Update` emits zero samples whatever the other fetches
do; and it returns an error exactly when no fetch earlier in the order memory, io, cpu failed,
i.e. when the first failing fetch is the one with the other error. -/
theorem C2_other_error_no_samples (NewFS : String → Except Error FS)
    (procPath : String) (c : pressureCollector) (fs : FS)
    (hopen : NewFS procPath = .ok fs)
    (hbad : ∃ r ∈ ["memory", "io", "cpu"], ∃ e,
      fs.NewResourcePressure r = .error e ∧ IsNotExist e = false) :
    (Update NewFS procPath c).1 = [] ∧
    ((Update NewFS procPath c).2 ≠ none ↔
      ((∃ e, fs.NewResourcePressure "memory" = .error e ∧ IsNotExist e = false) ∨
       (∃ mp e, fs.NewResourcePressure "memory" = .ok mp ∧
          fs.NewResourcePressure "io" = .error e ∧ IsNotExist e = false) ∨
       (∃ mp ip e, fs.NewResourcePressure "memory" = .ok mp ∧
          fs.NewResourcePressure "io" = .ok ip ∧
          fs.NewResourcePressure "cpu" = .error e ∧ IsNotExist e = false))) := by
  cases hmem : fs.NewResourcePressure "memory" with
  | error err =>
    rw [Update_memory_error _ _ _ _ _ hopen hmem]
    cases hne : IsNotExist err <;> simp [hne]
  | ok mp =>
    cases hio : fs.NewResourcePressure "io" with
    | error err =>
      rw [Update_io_error _ _ _ _ _ _ hopen hmem hio]
      cases hne : IsNotExist err <;> simp [hne]
    | ok ip =>
      cases hcpu : fs.NewResourcePressure "cpu" with
      | error err =>
        rw [Update_cpu_error _ _ _ _ _ _ _ hopen hmem hio hcpu]
        cases hne : IsNotExist err <;> simp [hne]
      | ok cp =>
        obtain ⟨r, hr, e, he, _⟩ := hbad
        simp only [List.mem_cons, List.mem_singleton, List.not_mem_nil, or_false] at hr
        rcases hr with rfl | rfl | rfl
        · rw [hmem] at he; cases he
        · rw [hio] at he; cases he
        · rw [hcpu] at he; cases he

/-- C2 (amended), at a mount whose `memory` file is missing and whose `io` file is malformed:
nothing is emitted and, the first failure being a missing file, no error is returned. -/
theorem C2_other_error_no_samples_witness :
    (Update (openOk fsMemMissingIoBad) "/proc" (NewPressureCollector "node").1).1 = [] :=
  (C2_other_error_no_samples (openOk fsMemMissingIoBad) "/proc" (NewPressureCollector "node").1
    fsMemMissingIoBad rfl ⟨"io", by simp, errParse, rfl, rfl⟩).1

/-- C3: when opening the telemetry source at the configured path fails, `Update` returns an
error (the open error wrapped as "failed to open procfs: ...") and emits zero samples, whatever
the resource fetches would have returned. -/
theorem C3_open_failure (NewFS : String → Except Error FS) (procPath : String)
    (c : pressureCollector) (err : Error) (hopen : NewFS procPath = .error err) :
    (Update NewFS procPath c).1 = [] ∧ (Update NewFS procPath c).2 ≠ none ∧
    (Update NewFS procPath c).2 = some (Errorf err) := by
  rw [Update_open_error NewFS procPath c err hopen]
  simp

/-- C3 at a mount that cannot be opened. -/
theorem C3_open_failure_witness :
    (Update openFail "/proc" (NewPressureCollector "node").1).1 = [] ∧
    (Update openFail "/proc" (NewPressureCollector "node").1).2 ≠ none ∧
    (Update openFail "/proc" (NewPressureCollector "node").1).2 =
      some (Errorf { msg := "could not read /proc", notExist := false }) :=
  C3_open_failure openFail "/proc" (NewPressureCollector "node").1 _ rfl

/-- C10: when the mount opens, the first failing fetch in the order memory, io, cpu decides the
outcome: a "file does not exist" error gives nil and zero samples, any other error is returned
as it is with zero samples, in both cases whatever the later fetches would return; samples are
emitted only when all three fetches succeed. -/
theorem C10_first_failure_decides (NewFS : String → Except Error FS) (procPath : String)
    (c : pressureCollector) (fs : FS) (hopen : NewFS procPath = .ok fs) :
    (∀ e, fs.NewResourcePressure "memory" = .error e →
      Update NewFS procPath c = ([], if IsNotExist e then none else some e)) ∧
    (∀ mp e, fs.NewResourcePressure "memory" = .ok mp →
      fs.NewResourcePressure "io" = .error e →
      Update NewFS procPath c = ([], if IsNotExist e then none else some e)) ∧
    (∀ mp ip e, fs.NewResourcePressure "memory" = .ok mp →
      fs.NewResourcePressure "io" = .ok ip →
      fs.NewResourcePressure "cpu" = .error e →
      Update NewFS procPath c = ([], if IsNotExist e then none else some e)) ∧
    ((Update NewFS procPath c).1 ≠ [] →
      ∃ mp ip cp, fs.NewResourcePressure "memory" = .ok mp ∧
        fs.NewResourcePressure "io" = .ok ip ∧ fs.NewResourcePressure "cpu" = .ok cp) := by
  refine ⟨?_, ?_, ?_, ?_⟩
  · intro e hmem
    exact Update_memory_error _ _ _ _ _ hopen hmem
  · intro mp e hmem hio
    exact Update_io_error _ _ _ _ _ _ hopen hmem hio
  · intro mp ip e hmem hio hcpu
    exact Update_cpu_error _ _ _ _ _ _ _ hopen hmem hio hcpu
  · intro h
    obtain ⟨fs2, mp, ip, cp, hopen2, hmem, hio, hcpu⟩ := Update_emits_only_when_all_ok _ _ _ h
    rw [hopen] at hopen2
    cases hopen2
    exact ⟨mp, ip, cp, hmem, hio, hcpu⟩

/-- C10 at a mount whose `memory` file is missing (and whose `io` file is malformed): the
missing file decides, the cycle ends with nil and no samples. -/
theorem C10_first_failure_decides_witness :
    Update (openOk fsMemMissingIoBad) "/proc" (NewPressureCollector "node").1 =
      ([], if IsNotExist errNotExist then none else some errNotExist) :=
  (C10_first_failure_decides (openOk fsMemMissingIoBad) "/proc" (NewPressureCollector "node").1
    fsMemMissingIoBad rfl).1 errNotExist rfl

/-! ## The samples of a successful cycle -/

/-- C4: when the mount opens and the three fetches succeed, then for each of cpu, memory, io
whose `Some` sub-record is present, the emitted samples contain exactly one sample tagged with
that resource's wait descriptor; it is of counter kind and its value is
`Some.TotalMicroseconds / 1000000` (exact arithmetic: dividing by 1000 twice). -/
theorem C4_wait_samples (namespace_ : String) (NewFS : String → Except Error FS)
    (procPath : String) (fs : FS) (mp ip cp : ResourcePressure)
    (hopen : NewFS procPath = .ok fs)
    (hmem : fs.NewResourcePressure "memory" = .ok mp)
    (hio : fs.NewResourcePressure "io" = .ok ip)
    (hcpu : fs.NewResourcePressure "cpu" = .ok cp) :
    (∀ s, cp.Some = some s →
      (Update NewFS procPath (NewPressureCollector namespace_).1).1.filter
          (fun m => m.desc = (NewPressureCollector namespace_).1.cpu) =
        [{ desc := (NewPressureCollector namespace_).1.cpu, valueType := ValueType.CounterValue,
           value := (s.TotalMicroseconds : ℚ) / 1000000 }]) ∧
    (∀ s, mp.Some = some s →
      (Update NewFS procPath (NewPressureCollector namespace_).1).1.filter
          (fun m => m.desc = (NewPressureCollector namespace_).1.mem) =
        [{ desc := (NewPressureCollector namespace_).1.mem, valueType := ValueType.CounterValue,
           value := (s.TotalMicroseconds : ℚ) / 1000000 }]) ∧
    (∀ s, ip.Some = some s →
      (Update NewFS procPath (NewPressureCollector namespace_).1).1.filter
          (fun m => m.desc = (NewPressureCollector namespace_).1.io) =
        [{ desc := (NewPressureCollector namespace_).1.io, valueType := ValueType.CounterValue,
           value := (s.TotalMicroseconds : ℚ) / 1000000 }]) := by
  have hem := Update_emitted_eq NewFS procPath (NewPressureCollector namespace_).1 fs mp ip cp
    hopen hmem hio hcpu
  obtain ⟨f1, f2, f3, _, _⟩ := filter_by_desc (NewPressureCollector namespace_).1
    (NewPressureCollector_descs_nodup namespace_) cp.Some mp.Some ip.Some mp.Full ip.Full
  refine ⟨?_, ?_, ?_⟩
  · intro s hs
    rw [hem, f1, hs]
    simp [constCounter, MustNewConstMetric, toSeconds_eq]
  · intro s hs
    rw [hem, f2, hs]
    simp [constCounter, MustNewConstMetric, toSeconds_eq]
  · intro s hs
    rw [hem, f3, hs]
    simp [constCounter, MustNewConstMetric, toSeconds_eq]

/-- C4 at a mount with cpu total 5000000: exactly one cpu-wait sample, of value 5 seconds. -/
theorem C4_wait_samples_witness :
    (Update (openOk (fsAll 5000000 7 3000000 1000000 2000000 500000)) "/proc"
        (NewPressureCollector "node").1).1.filter
        (fun m => m.desc = (NewPressureCollector "node").1.cpu) =
      [{ desc := (NewPressureCollector "node").1.cpu, valueType := ValueType.CounterValue,
         value := ((5000000 : Nat) : ℚ) / 1000000 }] :=
  (C4_wait_samples "node" (openOk (fsAll 5000000 7 3000000 1000000 2000000 500000)) "/proc"
    (fsAll 5000000 7 3000000 1000000 2000000 500000) _ _ _ rfl rfl rfl rfl).1
    { TotalMicroseconds := 5000000 } rfl

/-- C5: when the mount opens and the three fetches succeed, then for memory and for io, if the
`Full` sub-record is present, exactly one sample tagged with that resource's pause descriptor is
emitted, with value `Full.TotalMicroseconds / 1000000`. And for every input whatsoever, every
emitted sample is tagged with one of the five descriptors, and the result of `Update` does not
depend on the `Full` sub-record of cpu: replacing it changes nothing. -/
theorem C5_pause_samples (namespace_ : String) (NewFS : String → Except Error FS)
    (procPath : String) (fs : FS) (mp ip cp : ResourcePressure)
    (hopen : NewFS procPath = .ok fs)
    (hmem : fs.NewResourcePressure "memory" = .ok mp)
    (hio : fs.NewResourcePressure "io" = .ok ip)
    (hcpu : fs.NewResourcePressure "cpu" = .ok cp) :
    (∀ s, mp.Full = some s →
      (Update NewFS procPath (NewPressureCollector namespace_).1).1.filter
          (fun m => m.desc = (NewPressureCollector namespace_).1.memFull) =
        [{ desc := (NewPressureCollector namespace_).1.memFull,
           valueType := ValueType.CounterValue,
           value := (s.TotalMicroseconds : ℚ) / 1000000 }]) ∧
    (∀ s, ip.Full = some s →
      (Update NewFS procPath (NewPressureCollector namespace_).1).1.filter
          (fun m => m.desc = (NewPressureCollector namespace_).1.ioFull) =
        [{ desc := (NewPressureCollector namespace_).1.ioFull,
           valueType := ValueType.CounterValue,
           value := (s.TotalMicroseconds : ℚ) / 1000000 }]) ∧
    (∀ (NewFS2 : String → Except Error FS) (procPath2 : String),
      ∀ m ∈ (Update NewFS2 procPath2 (NewPressureCollector namespace_).1).1,
        m.desc ∈ [(NewPressureCollector namespace_).1.cpu, (NewPressureCollector namespace_).1.mem,
          (NewPressureCollector namespace_).1.io, (NewPressureCollector namespace_).1.memFull,
          (NewPressureCollector namespace_).1.ioFull]) ∧
    (∀ (NewFS2 : String → Except Error FS) (procPath2 : String) (fs2 : FS)
        (cp2 : ResourcePressure),
      NewFS2 procPath2 = .ok fs2 →
      fs2.NewResourcePressure "memory" = .ok mp →
      fs2.NewResourcePressure "io" = .ok ip →
      fs2.NewResourcePressure "cpu" = .ok cp2 →
      cp2.Some = cp.Some →
      Update NewFS2 procPath2 (NewPressureCollector namespace_).1 =
        Update NewFS procPath (NewPressureCollector namespace_).1) := by
  have hem := Update_emitted_eq NewFS procPath (NewPressureCollector namespace_).1 fs mp ip cp
    hopen hmem hio hcpu
  obtain ⟨_, _, _, f4, f5⟩ := filter_by_desc (NewPressureCollector namespace_).1
    (NewPressureCollector_descs_nodup namespace_) cp.Some mp.Some ip.Some mp.Full ip.Full
  refine ⟨?_, ?_, ?_, ?_⟩
  · intro s hs
    rw [hem, f4, hs]
    simp [constCounter, MustNewConstMetric, toSeconds_eq]
  · intro s hs
    rw [hem, f5, hs]
    simp [constCounter, MustNewConstMetric, toSeconds_eq]
  · intro NewFS2 procPath2 m hm
    have hne : (Update NewFS2 procPath2 (NewPressureCollector namespace_).1).1 ≠ [] :=
      List.ne_nil_of_mem hm
    obtain ⟨fs2, mp2, ip2, cp2, ho, h1, h2, h3⟩ := Update_emits_only_when_all_ok _ _ _ hne
    rw [Update_emitted_eq NewFS2 procPath2 _ fs2 mp2 ip2 cp2 ho h1 h2 h3] at hm
    rcases desc_mem_of_mem _ _ _ _ _ _ m hm with h | h | h | h | h <;> simp [h.1]
  · intro NewFS2 procPath2 fs2 cp2 ho h1 h2 h3 hsome
    rw [Update_all_ok NewFS2 procPath2 _ fs2 mp ip cp2 ho h1 h2 h3,
      Update_all_ok NewFS procPath _ fs mp ip cp hopen hmem hio hcpu, hsome]

/-- C5 at a mount whose `cpu` file carries a `full` line too (total 7): the memory pause
sample is the one of value 1000000 / 1000000. -/
theorem C5_pause_samples_witness :
    (Update (openOk (fsAll 5000000 7 3000000 1000000 2000000 500000)) "/proc"
        (NewPressureCollector "node").1).1.filter
        (fun m => m.desc = (NewPressureCollector "node").1.memFull) =
      [{ desc := (NewPressureCollector "node").1.memFull, valueType := ValueType.CounterValue,
         value := ((1000000 : Nat) : ℚ) / 1000000 }] :=
  (C5_pause_samples "node" (openOk (fsAll 5000000 7 3000000 1000000 2000000 500000)) "/proc"
    (fsAll 5000000 7 3000000 1000000 2000000 500000) _ _ _ rfl rfl rfl rfl).1
    { TotalMicroseconds := 1000000 } rfl

/-- C6: for every collection cycle, the descriptors of the emitted samples, in emission order,
form a subsequence of cpu-wait, memory-wait, io-wait, memory-pause, io-pause; and when the mount
opens, the fetches succeed and all five sub-records are present, the emitted sequence carries
exactly those five descriptors in that order. -/
theorem C6_emission_order (NewFS : String → Except Error FS) (procPath : String)
    (c : pressureCollector) :
    ((Update NewFS procPath c).1.map (fun m => m.desc)).Sublist
      [c.cpu, c.mem, c.io, c.memFull, c.ioFull] ∧
    (∀ (fs : FS) (mp ip cp : ResourcePressure) (s1 s2 s3 s4 s5 : ResourcePressureLine),
      NewFS procPath = .ok fs →
      fs.NewResourcePressure "memory" = .ok mp →
      fs.NewResourcePressure "io" = .ok ip →
      fs.NewResourcePressure "cpu" = .ok cp →
      cp.Some = some s1 → mp.Some = some s2 → ip.Some = some s3 →
      mp.Full = some s4 → ip.Full = some s5 →
      (Update NewFS procPath c).1.map (fun m => m.desc) =
        [c.cpu, c.mem, c.io, c.memFull, c.ioFull]) := by
  constructor
  · by_cases hne : (Update NewFS procPath c).1 = []
    · rw [hne]; simp
    · obtain ⟨fs, mp, ip, cp, ho, h1, h2, h3⟩ := Update_emits_only_when_all_ok _ _ _ hne
      rw [Update_emitted_eq NewFS procPath c fs mp ip cp ho h1 h2 h3]
      simp only [List.map_append]
      exact ((((desc_sublist_singleton c.cpu cp.Some).append
        (desc_sublist_singleton c.mem mp.Some)).append
        (desc_sublist_singleton c.io ip.Some)).append
        (desc_sublist_singleton c.memFull mp.Full)).append
        (desc_sublist_singleton c.ioFull ip.Full)
  · intro fs mp ip cp s1 s2 s3 s4 s5 ho h1 h2 h3 e1 e2 e3 e4 e5
    rw [Update_emitted_eq NewFS procPath c fs mp ip cp ho h1 h2 h3, e1, e2, e3, e4, e5]
    simp [constCounter, MustNewConstMetric]

/-- C6 at a mount where all five sub-records are present. -/
theorem C6_emission_order_witness :
    (Update (openOk (fsAll 5000000 7 3000000 1000000 2000000 500000)) "/proc"
        (NewPressureCollector "node").1).1.map (fun m => m.desc) =
      [(NewPressureCollector "node").1.cpu, (NewPressureCollector "node").1.mem,
       (NewPressureCollector "node").1.io, (NewPressureCollector "node").1.memFull,
       (NewPressureCollector "node").1.ioFull] :=
  (C6_emission_order (openOk (fsAll 5000000 7 3000000 1000000 2000000 500000)) "/proc"
    (NewPressureCollector "node").1).2
    (fsAll 5000000 7 3000000 1000000 2000000 500000) _ _ _ _ _ _ _ _
    rfl rfl rfl rfl rfl rfl rfl rfl rfl

/-- C7: absence is not treated as zero. In a cycle where the mount opens and the three fetches
succeed, an absent `Some` (respectively `Full`) sub-record of a resource gives no sample tagged
with that resource's wait (respectively pause) descriptor, and the number of emitted samples is
the number of present sub-records among cpu.Some, memory.Some, io.Some, memory.Full, io.Full.
In every other cycle nothing is emitted, and in every cycle at most five samples are emitted. -/
theorem C7_absence_is_not_zero (namespace_ : String) (NewFS : String → Except Error FS)
    (procPath : String) :
    (∀ (fs : FS) (mp ip cp : ResourcePressure),
      NewFS procPath = .ok fs →
      fs.NewResourcePressure "memory" = .ok mp →
      fs.NewResourcePressure "io" = .ok ip →
      fs.NewResourcePressure "cpu" = .ok cp →
      (cp.Some = none → ∀ m ∈ (Update NewFS procPath (NewPressureCollector namespace_).1).1,
        m.desc ≠ (NewPressureCollector namespace_).1.cpu) ∧
      (mp.Some = none → ∀ m ∈ (Update NewFS procPath (NewPressureCollector namespace_).1).1,
        m.desc ≠ (NewPressureCollector namespace_).1.mem) ∧
      (ip.Some = none → ∀ m ∈ (Update NewFS procPath (NewPressureCollector namespace_).1).1,
        m.desc ≠ (NewPressureCollector namespace_).1.io) ∧
      (mp.Full = none → ∀ m ∈ (Update NewFS procPath (NewPressureCollector namespace_).1).1,
        m.desc ≠ (NewPressureCollector namespace_).1.memFull) ∧
      (ip.Full = none → ∀ m ∈ (Update NewFS procPath (NewPressureCollector namespace_).1).1,
        m.desc ≠ (NewPressureCollector namespace_).1.ioFull) ∧
      (Update NewFS procPath (NewPressureCollector namespace_).1).1.length =
        ([cp.Some, mp.Some, ip.Some, mp.Full, ip.Full].filter (fun o => o.isSome)).length) ∧
    ((¬ ∃ fs mp ip cp, NewFS procPath = .ok fs ∧ fs.NewResourcePressure "memory" = .ok mp ∧
        fs.NewResourcePressure "io" = .ok ip ∧ fs.NewResourcePressure "cpu" = .ok cp) →
      (Update NewFS procPath (NewPressureCollector namespace_).1).1 = []) ∧
    0 ≤ (Update NewFS procPath (NewPressureCollector namespace_).1).1.length ∧
    (Update NewFS procPath (NewPressureCollector namespace_).1).1.length ≤ 5 := by
  have hall : ∀ (fs : FS) (mp ip cp : ResourcePressure),
      NewFS procPath = .ok fs →
      fs.NewResourcePressure "memory" = .ok mp →
      fs.NewResourcePressure "io" = .ok ip →
      fs.NewResourcePressure "cpu" = .ok cp →
      (Update NewFS procPath (NewPressureCollector namespace_).1).1.length =
        ([cp.Some, mp.Some, ip.Some, mp.Full, ip.Full].filter (fun o => o.isSome)).length := by
    intro fs mp ip cp ho h1 h2 h3
    rw [Update_emitted_eq NewFS procPath _ fs mp ip cp ho h1 h2 h3]
    exact length_optional_samples _ _ _ _ _ _
  refine ⟨?_, ?_, Nat.zero_le _, ?_⟩
  · intro fs mp ip cp ho h1 h2 h3
    have hem := Update_emitted_eq NewFS procPath (NewPressureCollector namespace_).1 fs mp ip cp
      ho h1 h2 h3
    have hmem := fun m hm => eq_constCounter_of_mem (NewPressureCollector namespace_).1
      (NewPressureCollector_descs_nodup namespace_) cp.Some mp.Some ip.Some mp.Full ip.Full m
      (hem ▸ hm)
    refine ⟨?_, ?_, ?_, ?_, ?_, hall fs mp ip cp ho h1 h2 h3⟩
    · intro hnone m hm hd
      obtain ⟨s, hs, _⟩ := (hmem m hm).1 hd
      rw [hnone] at hs; cases hs
    · intro hnone m hm hd
      obtain ⟨s, hs, _⟩ := (hmem m hm).2.1 hd
      rw [hnone] at hs; cases hs
    · intro hnone m hm hd
      obtain ⟨s, hs, _⟩ := (hmem m hm).2.2.1 hd
      rw [hnone] at hs; cases hs
    · intro hnone m hm hd
      obtain ⟨s, hs, _⟩ := (hmem m hm).2.2.2.1 hd
      rw [hnone] at hs; cases hs
    · intro hnone m hm hd
      obtain ⟨s, hs, _⟩ := (hmem m hm).2.2.2.2 hd
      rw [hnone] at hs; cases hs
  · intro hno
    by_contra hne
    exact hno (Update_emits_only_when_all_ok _ _ _ hne)
  · by_cases hne : (Update NewFS procPath (NewPressureCollector namespace_).1).1 = []
    · rw [hne]; simp
    · obtain ⟨fs, mp, ip, cp, ho, h1, h2, h3⟩ := Update_emits_only_when_all_ok _ _ _ hne
      rw [hall fs mp ip cp ho h1 h2 h3]
      exact le_trans (List.length_filter_le _ _) (le_of_eq rfl)

/-- C7 at a mount where cpu reports nothing, memory only its `some` line and io both lines:
three sub-records are present and three samples are emitted. -/
theorem C7_absence_is_not_zero_witness :
    (Update (openOk fsSparse) "/proc" (NewPressureCollector "node").1).1.length =
      ([none, some { TotalMicroseconds := 3000000 }, some { TotalMicroseconds := 2000000 },
        none, some ({ TotalMicroseconds := 500000 } : ResourcePressureLine)].filter
          (fun o => o.isSome)).length :=
  ((C7_absence_is_not_zero "node" (openOk fsSparse) "/proc").1 fsSparse _ _ _
    rfl rfl rfl rfl).2.2.2.2.2

/-- C8: emitted values are monotonic in the kernel totals. For two cycles in which the mount
opens and the three fetches succeed, and for each of the five descriptors whose sub-record is
present in both, a sample of the first cycle and a sample of the second cycle under that
descriptor satisfy: if the first total is at most the second, the first value is at most the
second; if the totals are equal, the two samples are identical. And two cycles that read the
same three records emit the same samples and return the same result. -/
theorem C8_values_monotonic (namespace_ : String)
    (NewFS1 : String → Except Error FS) (procPath1 : String) (fs1 : FS)
    (mp1 ip1 cp1 : ResourcePressure)
    (NewFS2 : String → Except Error FS) (procPath2 : String) (fs2 : FS)
    (mp2 ip2 cp2 : ResourcePressure)
    (hopen1 : NewFS1 procPath1 = .ok fs1)
    (hmem1 : fs1.NewResourcePressure "memory" = .ok mp1)
    (hio1 : fs1.NewResourcePressure "io" = .ok ip1)
    (hcpu1 : fs1.NewResourcePressure "cpu" = .ok cp1)
    (hopen2 : NewFS2 procPath2 = .ok fs2)
    (hmem2 : fs2.NewResourcePressure "memory" = .ok mp2)
    (hio2 : fs2.NewResourcePressure "io" = .ok ip2)
    (hcpu2 : fs2.NewResourcePressure "cpu" = .ok cp2)
    (m1 m2 : Metric)
    (hm1 : m1 ∈ (Update NewFS1 procPath1 (NewPressureCollector namespace_).1).1)
    (hm2 : m2 ∈ (Update NewFS2 procPath2 (NewPressureCollector namespace_).1).1) :
    (∀ s1 s2, cp1.Some = some s1 → cp2.Some = some s2 →
      m1.desc = (NewPressureCollector namespace_).1.cpu →
      m2.desc = (NewPressureCollector namespace_).1.cpu →
      (s1.TotalMicroseconds ≤ s2.TotalMicroseconds → m1.value ≤ m2.value) ∧
      (s1.TotalMicroseconds = s2.TotalMicroseconds → m1 = m2)) ∧
    (∀ s1 s2, mp1.Some = some s1 → mp2.Some = some s2 →
      m1.desc = (NewPressureCollector namespace_).1.mem →
      m2.desc = (NewPressureCollector namespace_).1.mem →
      (s1.TotalMicroseconds ≤ s2.TotalMicroseconds → m1.value ≤ m2.value) ∧
      (s1.TotalMicroseconds = s2.TotalMicroseconds → m1 = m2)) ∧
    (∀ s1 s2, ip1.Some = some s1 → ip2.Some = some s2 →
      m1.desc = (NewPressureCollector namespace_).1.io →
      m2.desc = (NewPressureCollector namespace_).1.io →
      (s1.TotalMicroseconds ≤ s2.TotalMicroseconds → m1.value ≤ m2.value) ∧
      (s1.TotalMicroseconds = s2.TotalMicroseconds → m1 = m2)) ∧
    (∀ s1 s2, mp1.Full = some s1 → mp2.Full = some s2 →
      m1.desc = (NewPressureCollector namespace_).1.memFull →
      m2.desc = (NewPressureCollector namespace_).1.memFull →
      (s1.TotalMicroseconds ≤ s2.TotalMicroseconds → m1.value ≤ m2.value) ∧
      (s1.TotalMicroseconds = s2.TotalMicroseconds → m1 = m2)) ∧
    (∀ s1 s2, ip1.Full = some s1 → ip2.Full = some s2 →
      m1.desc = (NewPressureCollector namespace_).1.ioFull →
      m2.desc = (NewPressureCollector namespace_).1.ioFull →
      (s1.TotalMicroseconds ≤ s2.TotalMicroseconds → m1.value ≤ m2.value) ∧
      (s1.TotalMicroseconds = s2.TotalMicroseconds → m1 = m2)) ∧
    (mp1 = mp2 → ip1 = ip2 → cp1 = cp2 →
      Update NewFS1 procPath1 (NewPressureCollector namespace_).1 =
        Update NewFS2 procPath2 (NewPressureCollector namespace_).1) := by
  have e1 := eq_constCounter_of_mem (NewPressureCollector namespace_).1
    (NewPressureCollector_descs_nodup namespace_) cp1.Some mp1.Some ip1.Some mp1.Full ip1.Full m1
    (Update_emitted_eq NewFS1 procPath1 _ fs1 mp1 ip1 cp1 hopen1 hmem1 hio1 hcpu1 ▸ hm1)
  have e2 := eq_constCounter_of_mem (NewPressureCollector namespace_).1
    (NewPressureCollector_descs_nodup namespace_) cp2.Some mp2.Some ip2.Some mp2.Full ip2.Full m2
    (Update_emitted_eq NewFS2 procPath2 _ fs2 mp2 ip2 cp2 hopen2 hmem2 hio2 hcpu2 ▸ hm2)
  have key : ∀ (d : Desc) (o1 o2 : Option ResourcePressureLine),
      (∃ s, o1 = some s ∧ m1 = constCounter d s) → (∃ s, o2 = some s ∧ m2 = constCounter d s) →
      ∀ s1 s2, o1 = some s1 → o2 = some s2 →
        (s1.TotalMicroseconds ≤ s2.TotalMicroseconds → m1.value ≤ m2.value) ∧
        (s1.TotalMicroseconds = s2.TotalMicroseconds → m1 = m2) := by
    intro d o1 o2 ⟨t1, ht1, hv1⟩ ⟨t2, ht2, hv2⟩ s1 s2 hs1 hs2
    rw [ht1] at hs1
    rw [ht2] at hs2
    cases hs1
    cases hs2
    rw [hv1, hv2]
    exact constCounter_compare d t1 t2
  refine ⟨?_, ?_, ?_, ?_, ?_, ?_⟩
  · intro s1 s2 hs1 hs2 hd1 hd2
    exact key _ _ _ (e1.1 hd1) (e2.1 hd2) s1 s2 hs1 hs2
  · intro s1 s2 hs1 hs2 hd1 hd2
    exact key _ _ _ (e1.2.1 hd1) (e2.2.1 hd2) s1 s2 hs1 hs2
  · intro s1 s2 hs1 hs2 hd1 hd2
    exact key _ _ _ (e1.2.2.1 hd1) (e2.2.2.1 hd2) s1 s2 hs1 hs2
  · intro s1 s2 hs1 hs2 hd1 hd2
    exact key _ _ _ (e1.2.2.2.1 hd1) (e2.2.2.2.1 hd2) s1 s2 hs1 hs2
  · intro s1 s2 hs1 hs2 hd1 hd2
    exact key _ _ _ (e1.2.2.2.2 hd1) (e2.2.2.2.2 hd2) s1 s2 hs1 hs2
  · intro hmp hip hcp
    rw [Update_all_ok NewFS1 procPath1 _ fs1 mp1 ip1 cp1 hopen1 hmem1 hio1 hcpu1,
      Update_all_ok NewFS2 procPath2 _ fs2 mp2 ip2 cp2 hopen2 hmem2 hio2 hcpu2, hmp, hip, hcp]

/-- C8 at two cycles whose cpu totals are 5000000 and then 6000000: the cpu-wait value of the
first cycle is at most that of the second. -/
theorem C8_values_monotonic_witness :
    (constCounter (NewPressureCollector "node").1.cpu { TotalMicroseconds := 5000000 }).value ≤
      (constCounter (NewPressureCollector "node").1.cpu { TotalMicroseconds := 6000000 }).value :=
  ((C8_values_monotonic "node"
    (openOk (fsAll 5000000 7 3000000 1000000 2000000 500000)) "/proc"
    (fsAll 5000000 7 3000000 1000000 2000000 500000) _ _ _
    (openOk (fsAll 6000000 7 3000000 1000000 2000000 500000)) "/proc"
    (fsAll 6000000 7 3000000 1000000 2000000 500000) _ _ _
    rfl rfl rfl rfl rfl rfl rfl rfl
    (constCounter (NewPressureCollector "node").1.cpu { TotalMicroseconds := 5000000 })
    (constCounter (NewPressureCollector "node").1.cpu { TotalMicroseconds := 6000000 })
    (by simp [Update, openOk, fsAll, sendIfPresent, send])
    (by simp [Update, openOk, fsAll, sendIfPresent, send])).1
    { TotalMicroseconds := 5000000 } { TotalMicroseconds := 6000000 } rfl rfl rfl rfl).1
    (by decide)

/-- C9: `NewPressureCollector` always returns a nil error. For a (non-empty) configured
namespace the five descriptors carry the names `<namespace>_pressure_wait_for_cpu_seconds_total`
(cpu), `<namespace>_pressure_wait_for_io_seconds_total` (io),
`<namespace>_pressure_pause_for_io_seconds_total` (ioFull),
`<namespace>_pressure_wait_for_memory_seconds_total` (mem) and
`<namespace>_pressure_pause_for_memory_seconds_total` (memFull). The five names are pairwise
distinct, and a successful `Update` tags cpu.Some with cpu, memory.Some with mem, io.Some with
io, memory.Full with memFull and io.Full with ioFull. -/
theorem C9_descriptors (namespace_ : String) :
    (NewPressureCollector namespace_).2 = none ∧
    (namespace_ ≠ "" →
      (NewPressureCollector namespace_).1.cpu.fqName =
        namespace_ ++ "_pressure_wait_for_cpu_seconds_total" ∧
      (NewPressureCollector namespace_).1.io.fqName =
        namespace_ ++ "_pressure_wait_for_io_seconds_total" ∧
      (NewPressureCollector namespace_).1.ioFull.fqName =
        namespace_ ++ "_pressure_pause_for_io_seconds_total" ∧
      (NewPressureCollector namespace_).1.mem.fqName =
        namespace_ ++ "_pressure_wait_for_memory_seconds_total" ∧
      (NewPressureCollector namespace_).1.memFull.fqName =
        namespace_ ++ "_pressure_pause_for_memory_seconds_total") ∧
    [(NewPressureCollector namespace_).1.cpu.fqName, (NewPressureCollector namespace_).1.mem.fqName,
     (NewPressureCollector namespace_).1.io.fqName, (NewPressureCollector namespace_).1.memFull.fqName,
     (NewPressureCollector namespace_).1.ioFull.fqName].Nodup ∧
    (∀ (NewFS : String → Except Error FS) (procPath : String) (fs : FS)
        (mp ip cp : ResourcePressure),
      NewFS procPath = .ok fs →
      fs.NewResourcePressure "memory" = .ok mp →
      fs.NewResourcePressure "io" = .ok ip →
      fs.NewResourcePressure "cpu" = .ok cp →
      (Update NewFS procPath (NewPressureCollector namespace_).1).1 =
        (cp.Some.map (fun s => MustNewConstMetric (NewPressureCollector namespace_).1.cpu
            ValueType.CounterValue (toSeconds s.TotalMicroseconds))).toList ++
        (mp.Some.map (fun s => MustNewConstMetric (NewPressureCollector namespace_).1.mem
            ValueType.CounterValue (toSeconds s.TotalMicroseconds))).toList ++
        (ip.Some.map (fun s => MustNewConstMetric (NewPressureCollector namespace_).1.io
            ValueType.CounterValue (toSeconds s.TotalMicroseconds))).toList ++
        (mp.Full.map (fun s => MustNewConstMetric (NewPressureCollector namespace_).1.memFull
            ValueType.CounterValue (toSeconds s.TotalMicroseconds))).toList ++
        (ip.Full.map (fun s => MustNewConstMetric (NewPressureCollector namespace_).1.ioFull
            ValueType.CounterValue (toSeconds s.TotalMicroseconds))).toList) := by
  refine ⟨rfl, ?_, NewPressureCollector_names_nodup namespace_, ?_⟩
  · intro hn
    simp only [NewPressureCollector, NewDesc]
    refine ⟨?_, ?_, ?_, ?_, ?_⟩ <;>
      · rw [BuildFQName_pressure_nonempty namespace_ _ hn (by decide), String.append_assoc]
        rfl
  · intro NewFS procPath fs mp ip cp ho h1 h2 h3
    rw [Update_emitted_eq NewFS procPath _ fs mp ip cp ho h1 h2 h3]
    rfl

/-- C9 for the namespace `node`: the cpu descriptor is named
`node_pressure_wait_for_cpu_seconds_total`. -/
theorem C9_descriptors_witness :
    (NewPressureCollector "node").1.cpu.fqName =
      "node" ++ "_pressure_wait_for_cpu_seconds_total" :=
  ((C9_descriptors "node").2.1 (by decide)).1

end PressureCollector
